import Mathlib

/-!
Verification of the kimchi flight/collision core.

Shallow embedding of `src/app/scripts/kimchi.flight.js` (the authoritative,
later implementation of the flight-mode state machine) and
`src/app/scripts/kimchi.space.Body.js`.  External collaborators (the 3D math
provider, the raycaster, the input controls) are modelled as explicit
parameters: the raycaster's output is a list of intersections, vector length
and quaternion slerp are function parameters, DOM / HUD / clock side effects
are recorded as events in a trace.

Numbers are embedded as rationals (JS numbers are floats; all the control
  flow proved about here compares and adds numbers, which ℚ models exactly).
-/

namespace Kimchi

/-- A 3D vector, modelling `THREE.Vector3` componentwise. -/
abbrev Vec3 : Type := ℚ × ℚ × ℚ

/-- Componentwise vector addition (external math collaborator). -/
def vadd (u v : Vec3) : Vec3 := (u.1 + v.1, u.2.1 + v.2.1, u.2.2 + v.2.2)

/-- Scalar multiplication (external math collaborator). -/
def vscale (c : ℚ) (v : Vec3) : Vec3 := (c * v.1, c * v.2.1, c * v.2.2)

/-- Squared length of a vector.  `THREE.Vector3.length()` is the square
root of this; the source only tests `length() === 0`, which holds iff the
squared length is `0`, so the embedding keeps the exact rational square. -/
def lengthSq (v : Vec3) : ℚ := v.1 ^ 2 + v.2.1 ^ 2 + v.2.2 ^ 2

/-- Observable side-effect calls made by the flight module, recorded as a
trace.  `enableCall`/`disableCall` are `Mode` lifecycle invocations
(`kimchi.flight.js` lines 102-112); the remaining constructors are the
per-tick collaborator calls made by the mode `animationFrame` bodies. -/
inductive ModeEvent
  | enableCall (modeName : String)
  | disableCall (modeName : String)
  | timeIncrement
  | bodyTranslate
  | bodyRotate
  | moveBodyChildren
  | hudUpdate
  deriving DecidableEq, Repr

/-- The mutable state of the flight-mode state machine: the private
`currentMode` string (`kimchi.flight.js` line 22, initially `''`) and the
`enabled` flag of each of the three `Mode` instances in `flight.modes`. -/
structure FlightState where
  currentMode : String
  freeEnabled : Bool
  autoEnabled : Bool
  menuEnabled : Bool
  deriving DecidableEq, Repr

/-- The state at startup: `currentMode = ''`, every mode's `enabled` flag
still at its prototype default `false` (line 97). -/
def initFlightState : FlightState :=
  { currentMode := "", freeEnabled := false, autoEnabled := false,
    menuEnabled := false }

/-- `typeof flight.modes[name] === 'object'`: `flight.modes` holds exactly
the keys `free`, `auto`, `menu`. -/
def isModeName (name : String) : Bool :=
  decide (name = "free") || decide (name = "auto") || decide (name = "menu")

/-- Write the `enabled` flag of the named mode (no-op for a key that is not
in `flight.modes`). -/
def setEnabled (s : FlightState) (name : String) (b : Bool) : FlightState :=
  if name = "free" then { s with freeEnabled := b }
  else if name = "auto" then { s with autoEnabled := b }
  else if name = "menu" then { s with menuEnabled := b }
  else s

/-- Read the `enabled` flag of the named mode (`false` for a key that is
not in `flight.modes`). -/
def enabledOf (s : FlightState) (name : String) : Bool :=
  if name = "free" then s.freeEnabled
  else if name = "auto" then s.autoEnabled
  else if name = "menu" then s.menuEnabled
  else false

/-- Outcome of one `flight.setMode(name)` call: the state when the call
returns (or when the thrown `TypeError` propagates), the lifecycle calls it
made, and whether it threw (`flight.modes[name].enable()` on an unknown
`name` is a call on `undefined`). -/
structure SetModeResult where
  state : FlightState
  events : List ModeEvent
  threw : Bool
  deriving DecidableEq, Repr

/-- `flight.setMode` (`kimchi.flight.js` lines 41-57).  If the target is
the current mode, return immediately.  Otherwise disable the previous mode
when one exists, then enable the target and update `currentMode`; a target
outside `flight.modes` throws after the disable, leaving `currentMode`
unchanged. -/
def setMode (s : FlightState) (name : String) : SetModeResult :=
  let prevName := s.currentMode
  if prevName = name then
    { state := s, events := [], threw := false }
  else
    let s1 := if isModeName prevName then setEnabled s prevName false else s
    let evs1 := if isModeName prevName then [ModeEvent.disableCall prevName]
      else ([] : List ModeEvent)
    if isModeName name then
      { state := { setEnabled s1 name true with currentMode := name },
        events := evs1 ++ [ModeEvent.enableCall name],
        threw := false }
    else
      { state := s1, events := evs1, threw := true }

/-- Run a sequence of `setMode` calls from a given state, keeping only the
resulting states. -/
def runSetModes (s : FlightState) (names : List String) : FlightState :=
  names.foldl (fun st n => (setMode st n).state) s

/-- Invariant of the state machine: only the mode named by `currentMode`
may have its `enabled` flag set. -/
def onlyCurrentEnabled (s : FlightState) : Bool :=
  (!s.freeEnabled || decide (s.currentMode = "free")) &&
  (!s.autoEnabled || decide (s.currentMode = "auto")) &&
  (!s.menuEnabled || decide (s.currentMode = "menu"))

/-- At most one of the three `enabled` flags is set. -/
def atMostOneEnabled (s : FlightState) : Bool :=
  !(s.freeEnabled && s.autoEnabled) &&
  !(s.freeEnabled && s.menuEnabled) &&
  !(s.autoEnabled && s.menuEnabled)

/-- The per-instance state of one `Mode` object: its `name`, its `enabled`
flag (prototype default `false`) and its scalar `speed`. -/
structure ModeState where
  name : String
  enabled : Bool
  speed : ℚ
  deriving DecidableEq, Repr

/-- `Mode.prototype.enable` (lines 102-105): set `enabled` and start the
animation loop (the loop registration is an external call, recorded by the
caller's trace). -/
def modeEnable (m : ModeState) : ModeState := { m with enabled := true }

/-- `Mode.prototype.disable` (lines 110-112). -/
def modeDisable (m : ModeState) : ModeState := { m with enabled := false }

/-- `Mode.prototype.toggle` (lines 117-129).  The argument models the JS
parameter: `some b` when a boolean is passed, `none` when it is omitted
(`typeof enable === 'boolean'` fails).  Returns the new state together
with the lifecycle call made. -/
def modeToggle (m : ModeState) (enableArg : Option Bool) :
    ModeState × List ModeEvent :=
  match enableArg with
  | some true => (modeEnable m, [ModeEvent.enableCall m.name])
  | some false => (modeDisable m, [ModeEvent.disableCall m.name])
  | none =>
    if m.enabled then (modeEnable m, [ModeEvent.enableCall m.name])
    else (modeDisable m, [ModeEvent.disableCall m.name])

/-- Kilometres per astronomical unit, `KIMCHI.constants.kmPerAu` (the
constants module is not under `src/`; this is the standard value the name
denotes, used by `kimchi.space.Body.js` line 48). -/
def kmPerAu : ℚ := 149597871

/-- An astronomical body, `kimchi.space.Body.js`.  `radiusInKm` is the
constructor option (prototype default `0`, line 119); `scaleX` is
`object3Ds.main.scale.x`, the current size-scale factor read by
`getScaledRadius`; `collideable` defaults to `true` (line 133). -/
structure Body where
  name : String
  radiusInKm : ℚ
  scaleX : ℚ
  collideable : Bool
  deriving DecidableEq, Repr

/-- `this.radius = this.radiusInKm / KIMCHI.constants.kmPerAu`
(constructor, line 48). -/
def Body.radius (b : Body) : ℚ := b.radiusInKm / kmPerAu

/-- `Body.prototype.getScaledRadius` (line 213-218):
`this.radius * this.object3Ds.main.scale.x`. -/
def Body.getScaledRadius (b : Body) : ℚ := b.radius * b.scaleX

/-- `Body.prototype.getSurfaceCollisionDistance` (line 261-263):
`return this.getScaledRadius();`. -/
def Body.getSurfaceCollisionDistance (b : Body) : ℚ := b.getScaledRadius

/-- `Body.prototype.getCollisionDistance` (line 238-240):
`this.getScaledRadius() + this.getSurfaceCollisionDistance()`. -/
def Body.getCollisionDistance (b : Body) : ℚ :=
  b.getScaledRadius + b.getSurfaceCollisionDistance

/-- `Body.prototype.isColliding` (line 273-275), with the Euclidean
distance between the body's mesh and the given object supplied by the
external 3D math collaborator (`THREE.Object3D.getDistance`) as the
`distToObject` argument. -/
def Body.isColliding (b : Body) (distToObject : ℚ) : Bool :=
  distToObject < b.getCollisionDistance

/-- The margin that `getCollisionDistance` adds on top of the scaled
radius. -/
def collisionMargin (b : Body) : ℚ :=
  b.getCollisionDistance - b.getScaledRadius

/-- Modelled from the spec: `KIMCHI.space.getCollideableBodies` lives in
`kimchi.space.js`, which is not under `src/`; spec 4.1 defines it as the
subset of all bodies `where collideable = true`. -/
def getCollideableBodies (allBodies : List Body) : List Body :=
  allBodies.filter (fun b => b.collideable)

/-- Modelled from the spec: `KIMCHI.space.getClosestDistance` lives in
`kimchi.space.js`, which is not under `src/`; spec 4.1 defines it as the
minimum Euclidean distance from the reference point to any given body's
position, returning the positive-infinity sentinel (here `⊤`) on an empty
body set.  `distOf` is the camera-to-body distance supplied by the
external 3D math collaborator. -/
def getClosestDistance (distOf : Body → ℚ) (bodies : List Body) :
    WithTop ℚ :=
  (bodies.map (fun b => ((distOf b : ℚ) : WithTop ℚ))).foldr min ⊤

/-- `flight.getTranslationSpeedMultiplier` (`kimchi.flight.js` lines
67-73).  The argument is `none` when the JS parameter is omitted
(`typeof bodies === 'undefined'`), in which case it defaults to all
collideable bodies. -/
def getTranslationSpeedMultiplier (distOf : Body → ℚ)
    (allBodies : List Body) (bodies : Option (List Body)) : WithTop ℚ :=
  match bodies with
  | none => getClosestDistance distOf (getCollideableBodies allBodies)
  | some bs => getClosestDistance distOf bs

/-- One entry of the array returned by
`raycaster.intersectObjects(KIMCHI.space.getCollideableObject3Ds())`
(external raycast collaborator): the intersected object's `name` and the
intersection `distance`. -/
structure RayIntersection where
  objectName : String
  distance : ℚ
  deriving DecidableEq, Repr

/-- The free-flight `colliding()` closure (`kimchi.flight.js` lines
177-224).  `tv` is `KIMCHI.controls.getLocalTranslationVector()`;
`intersects` is the raycaster's output for the camera ray along the
translation direction; `getBody` is `KIMCHI.space.getBody` resolving an
object name to its `Body`.  The `_.each` loop sets the return value to
`true` on the first intersection closer than its body's collision distance
and breaks, which is exactly `List.any`.  The JS test
`translationVector.length() === 0` holds iff the squared length is `0`. -/
def colliding (tv : Vec3) (intersects : List RayIntersection)
    (getBody : String → Body) : Bool :=
  if lengthSq tv = 0 then false
  else if intersects.length = 0 then false
  else intersects.any
    (fun i => decide (i.distance < (getBody i.objectName).getCollisionDistance))

/-- A concrete body: 1 au scaled radius (`radiusInKm = kmPerAu`, unit
scale). -/
def bodyExA : Body :=
  { name := "A", radiusInKm := kmPerAu, scaleX := 1, collideable := true }

/-- A concrete body: 2 au scaled radius. -/
def bodyExB : Body :=
  { name := "B", radiusInKm := 2 * kmPerAu, scaleX := 1, collideable := true }

/-- The spec's scenario body: Earth with collision distance `1/10000` au
(scaled radius `1/20000` au). -/
def earthBody : Body :=
  { name := "Earth", radiusInKm := kmPerAu / 20000, scaleX := 1,
    collideable := true }

/-- A body lookup resolving every object name to `earthBody` (the scene of
the spec's scenario has a single body). -/
def lookupEarth : String → Body := fun _ => earthBody

/-- A concrete camera-to-body distance function for witnesses. -/
def dExample : Body → ℚ := fun b => b.radiusInKm / kmPerAu + 3

/-- The camera: world position and the world direction of its local z
axis (the part of the THREE camera transform that `translateZ` needs). -/
structure Camera where
  position : Vec3
  zAxisWorld : Vec3
  deriving DecidableEq, Repr

/-- `camera.translateZ(d)` (external 3D collaborator): move the camera
along its local z axis by `d`. -/
def Camera.translateZ (c : Camera) (d : ℚ) : Camera :=
  { c with position := vadd c.position (vscale d c.zAxisWorld) }

/-- The simulation state an `animationFrame` touches: the mode state
machine, the camera, and the executing mode's scalar `speed`. -/
structure SimState where
  flight : FlightState
  camera : Camera
  speed : ℚ
  deriving DecidableEq, Repr

/-- The auto-flight `update(delta)` helper (`kimchi.flight.js` lines
324-330): move the Bodies' children, update the HUD. -/
def autoUpdateEvents : List ModeEvent :=
  [ModeEvent.moveBodyChildren, ModeEvent.hudUpdate]

/-- Result of one animation-frame callback: the state when it returns,
the collaborator calls made, and its return value (`none` models the JS
`undefined`, `some false` the stop signal). -/
structure FrameResult where
  state : SimState
  events : List ModeEvent
  signal : Option Bool
  deriving DecidableEq, Repr

/-- One tick of auto-flight phase 2, the `mode.animationFrame` installed
by `translateTo(body)` (`kimchi.flight.js` lines 385-401).  `distOf`
gives the camera-to-body-center distance (external
`THREE.Object3D.getDistance`), used both by `isColliding` and by
`getClosestDistance`; `zSpeed` is `KIMCHI.config.get('controls-z-speed')`.
The speed multiplier for the one-element set `[body]` is always finite,
so `untop'` only strips the coercion. -/
def translateToFrame (zSpeed : ℚ) (distOf : Body → ℚ)
    (allBodies : List Body) (body : Body) (delta : ℚ) (s : SimState) :
    FrameResult :=
  if body.isColliding (distOf body) then
    let r := setMode s.flight "menu"
    { state := { s with flight := r.state }, events := r.events,
      signal := some false }
  else
    let translationZ := zSpeed * delta *
      (getTranslationSpeedMultiplier distOf allBodies (some [body])).untop' 0
    { state := { flight := s.flight,
                 camera := s.camera.translateZ (-translationZ),
                 speed := translationZ / delta },
      events := autoUpdateEvents,
      signal := none }

/-- The two sub-phases of an auto-flight maneuver, i.e. which function is
currently installed as the auto mode's `animationFrame`. -/
inductive AutoPhase
  | pan
  | translate
  deriving DecidableEq, Repr

/-- State of the pan sub-phase: the interpolation parameter `t`, the
camera orientation (of the external quaternion type `Q`), and the
installed sub-phase. -/
structure PanState (Q : Type) where
  t : ℚ
  quat : Q
  phase : AutoPhase

/-- One tick of auto-flight phase 1, the `mode.animationFrame` installed
by `panTo(body)` (`kimchi.flight.js` lines 357-376).  `slerp` is the
external quaternion spherical interpolation
(`initialQuaternion.clone().slerp(targetQuaternion, t)`); `0.05` is
`1/20` exactly.  Once `t` exceeds `1` (and is not within `0.05` of it,
in which case it is first snapped to exactly `1`), `translateTo(body)`
replaces `animationFrame`, modelled by the `phase` field. -/
def panToFrame {Q : Type} (slerp : Q → Q → ℚ → Q)
    (initialQuaternion targetQuaternion : Q) (s : PanState Q) :
    PanState Q :=
  let t := if 1 < s.t ∧ s.t < 1 + 1/20 then 1 else s.t
  if t ≤ 1 then
    { t := t + 1/20,
      quat := slerp initialQuaternion targetQuaternion t,
      phase := AutoPhase.pan }
  else
    { s with phase := AutoPhase.translate }

/-- The pan sub-phase run: `panTo(body)` captures the camera orientation
as `initialQuaternion` and sets `t = 0` (lines 346, 356), then the
installed `animationFrame` executes once per tick. -/
def panRun {Q : Type} (slerp : Q → Q → ℚ → Q)
    (initialQuaternion targetQuaternion : Q) : ℕ → PanState Q
  | 0 => { t := 0, quat := initialQuaternion, phase := AutoPhase.pan }
  | n + 1 => panToFrame slerp initialQuaternion targetQuaternion
      (panRun slerp initialQuaternion targetQuaternion n)

/-- Linear interpolation on ℚ, a concrete stand-in for the external
slerp in witnesses (all that matters is its value at `t = 1`). -/
def qlerp : ℚ → ℚ → ℚ → ℚ := fun a b t => a + t * (b - a)

/-- Configuration read by the free `animationFrame` and `getSpeed`:
`time-on`, `rotate-bodies`, `controls-strafe-speed`,
`controls-z-speed`. -/
structure FreeConfig where
  timeOn : Bool
  rotateBodiesOn : Bool
  strafeSpeed : ℚ
  zSpeed : ℚ
  deriving DecidableEq, Repr

/-- The free-flight `getSpeed(delta)` helper (`kimchi.flight.js` lines
231-238).  `length3` is the external `THREE.Vector3.length`; the
multiplier is `getTranslationSpeedMultiplier()` with the argument
omitted (finite whenever a collideable body exists; `untop'` strips the
coercion). -/
def getSpeed (length3 : Vec3 → ℚ) (cfg : FreeConfig) (distOf : Body → ℚ)
    (allBodies : List Body) (tv : Vec3) (delta : ℚ) : ℚ :=
  length3 (tv.1 * cfg.strafeSpeed, tv.2.1 * cfg.strafeSpeed,
      tv.2.2 * cfg.zSpeed) *
    (getTranslationSpeedMultiplier distOf allBodies none).untop' 0 / delta

/-- A concrete free-flight configuration for witnesses. -/
def cfgExample : FreeConfig :=
  { timeOn := true, rotateBodiesOn := false, strafeSpeed := 1, zSpeed := 1 }

/-- A concrete camera for witnesses. -/
def camExample : Camera := { position := (0, 0, 0), zAxisWorld := (0, 0, 1) }

/-- A concrete simulation state for witnesses. -/
def simExample : SimState :=
  { flight := initFlightState, camera := camExample, speed := 0 }

/-- One tick of the free-flight `mode.animationFrame` (`kimchi.flight.js`
lines 253-280).  `moveCamera` is the external
`KIMCHI.controls.moveCamera(delta, multiplier)` applied to the camera;
the unconditional tail of the frame (translate the Bodies when `time-on`,
rotate them when `rotate-bodies`, move their children, update the HUD) is
recorded in the event trace. -/
def freeFrame (cfg : FreeConfig) (length3 : Vec3 → ℚ)
    (distOf : Body → ℚ) (allBodies : List Body) (tv : Vec3)
    (intersects : List RayIntersection) (getBody : String → Body)
    (moveCamera : ℚ → ℚ → Camera → Camera) (delta : ℚ) (s : SimState) :
    SimState × List ModeEvent :=
  let s1 :=
    if colliding tv intersects getBody then s
    else
      { s with
        camera := moveCamera delta
          ((getTranslationSpeedMultiplier distOf allBodies none).untop' 0)
          s.camera,
        speed := getSpeed length3 cfg distOf allBodies tv delta }
  (s1,
    (if cfg.timeOn then [ModeEvent.timeIncrement, ModeEvent.bodyTranslate]
     else []) ++
    (if cfg.rotateBodiesOn then [ModeEvent.bodyRotate] else []) ++
    [ModeEvent.moveBodyChildren, ModeEvent.hudUpdate])

end Kimchi

namespace Kimchi

/-! ## Theorems about the mode state machine -/

/-- Helper: `onlyCurrentEnabled` implies `atMostOneEnabled` (two enabled
modes would force `currentMode` to equal two distinct literals). -/
theorem onlyCurrent_atMostOne (s : FlightState)
    (h : onlyCurrentEnabled s = true) : atMostOneEnabled s = true := by
  rcases s with ⟨c, f, a, m⟩
  simp only [onlyCurrentEnabled, atMostOneEnabled, Bool.and_eq_true,
    Bool.or_eq_true, Bool.not_eq_true', decide_eq_true_eq] at h ⊢
  obtain ⟨⟨hf, ha⟩, hm⟩ := h
  cases f <;> cases a <;> cases m <;> simp_all

/-- Helper: one `setMode` call, with any argument, preserves
`onlyCurrentEnabled`. -/
theorem setMode_preserves_onlyCurrent (s : FlightState) (name : String)
    (h : onlyCurrentEnabled s = true) :
    onlyCurrentEnabled (setMode s name).state = true := by
  rcases s with ⟨c, f, a, m⟩
  simp only [onlyCurrentEnabled, Bool.and_eq_true, Bool.or_eq_true,
    Bool.not_eq_true', decide_eq_true_eq] at h
  obtain ⟨⟨hf, ha⟩, hm⟩ := h
  simp only [setMode, isModeName, setEnabled, onlyCurrentEnabled]
  split_ifs <;>
    simp_all [onlyCurrentEnabled, Bool.and_eq_true, Bool.or_eq_true,
      Bool.not_eq_true', decide_eq_true_eq]

/-- Helper: a run of `setMode` calls from a state satisfying the invariant
ends in a state satisfying the invariant. -/
theorem runSetModes_preserves_onlyCurrent (names : List String) :
    ∀ s : FlightState, onlyCurrentEnabled s = true →
      onlyCurrentEnabled (runSetModes s names) = true := by
  induction names with
  | nil => intro s h; exact h
  | cons n rest ih =>
    intro s h
    exact ih _ (setMode_preserves_onlyCurrent s n h)

/-- Claim C1: for every sequence of `setMode` calls over the fixed mode set
`{free, auto, menu}`, starting from the initial state in which no mode is
enabled, at most one mode's `enabled` flag is true at any inspection point
between calls (i.e. after running any prefix of the sequence). -/
theorem setMode_exclusive_activation (names : List String)
    (hnames : ∀ n ∈ names, isModeName n = true) :
    ∀ pre : List String, pre <+: names →
      atMostOneEnabled (runSetModes initFlightState pre) = true := by
  intro pre _
  exact onlyCurrent_atMostOne _
    (runSetModes_preserves_onlyCurrent pre initFlightState (by decide))

/-- Witness for C1: the concrete call sequence `menu, free, free, auto`
consists of mode names, and after its prefix `menu, free, free` exactly at
most one mode is enabled. -/
theorem setMode_exclusive_activation_witness :
    (∀ n ∈ ["menu", "free", "free", "auto"], isModeName n = true) ∧
    atMostOneEnabled
      (runSetModes initFlightState ["menu", "free", "free"]) = true :=
  ⟨by decide,
    setMode_exclusive_activation ["menu", "free", "free", "auto"] (by decide)
      ["menu", "free", "free"] ⟨["auto"], rfl⟩⟩

/-- Helper: `setMode` on the current mode is the early-return no-op. -/
theorem setMode_self (s : FlightState) (name : String)
    (h : s.currentMode = name) :
    setMode s name = { state := s, events := [], threw := false } := by
  simp [setMode, h]

/-- Helper: a successful transition sets `currentMode` to the target. -/
theorem setMode_state_currentMode (s : FlightState) (name : String)
    (h : s.currentMode ≠ name) (hm : isModeName name = true) :
    (setMode s name).state.currentMode = name := by
  simp only [setMode, hm, if_neg h, if_true]

/-- Helper: the lifecycle calls of a successful transition. -/
theorem setMode_events_of_ne (s : FlightState) (name : String)
    (h : s.currentMode ≠ name) (hm : isModeName name = true) :
    (setMode s name).events =
      (if isModeName s.currentMode then [ModeEvent.disableCall s.currentMode]
       else []) ++ [ModeEvent.enableCall name] := by
  simp only [setMode, hm, if_neg h, if_true]

/-- Claim C6: calling `setMode` with the currently-active mode name is an
explicit no-op: after `setMode('free')` from a state whose current mode is
not `free`, a second `setMode('free')` leaves the state unchanged, makes no
lifecycle calls at all (in particular no `disable()`), and across the two
calls `free.enable()` is invoked exactly once. -/
theorem setMode_free_idempotent (s : FlightState)
    (h : s.currentMode ≠ "free") :
    (setMode (setMode s "free").state "free").state = (setMode s "free").state ∧
    (setMode (setMode s "free").state "free").events = [] ∧
    ((setMode s "free").events ++
        (setMode (setMode s "free").state "free").events).count
      (ModeEvent.enableCall "free") = 1 := by
  have hcur : (setMode s "free").state.currentMode = "free" :=
    setMode_state_currentMode s "free" h (by decide)
  have hsecond := setMode_self (setMode s "free").state "free" hcur
  refine ⟨by rw [hsecond], by rw [hsecond], ?_⟩
  rw [hsecond]
  rw [setMode_events_of_ne s "free" h (by decide)]
  split_ifs <;>
    simp [List.count_append, List.count_cons, List.count_nil]

/-- Witness for C6: from the initial state (current mode `''`). -/
theorem setMode_free_idempotent_witness :
    (setMode (setMode initFlightState "free").state "free").state =
        (setMode initFlightState "free").state ∧
    (setMode (setMode initFlightState "free").state "free").events = [] ∧
    ((setMode initFlightState "free").events ++
        (setMode (setMode initFlightState "free").state "free").events).count
      (ModeEvent.enableCall "free") = 1 :=
  setMode_free_idempotent initFlightState (by decide)

/-- Claim C9: calling `setMode` with a name outside `{free, auto, menu}`
while a mode is active first runs the active mode's `disable()`, then
throws on the lookup of the unknown target: the failure leaves no mode
enabled and `currentMode` still holding the previous name (no atomicity). -/
theorem setMode_unknown_not_atomic (s : FlightState) (name : String)
    (hinv : onlyCurrentEnabled s = true)
    (hcur : isModeName s.currentMode = true)
    (hname : isModeName name = false) :
    (setMode s name).threw = true ∧
    (setMode s name).events = [ModeEvent.disableCall s.currentMode] ∧
    (setMode s name).state.currentMode = s.currentMode ∧
    ∀ n : String, enabledOf (setMode s name).state n = false := by
  have hne : s.currentMode ≠ name := by
    intro he
    rw [he, hname] at hcur
    exact absurd hcur (by decide)
  have hstep : setMode s name =
      { state := setEnabled s s.currentMode false,
        events := [ModeEvent.disableCall s.currentMode],
        threw := true } := by
    simp [setMode, if_neg hne, hcur, hname]
  rw [hstep]
  rcases s with ⟨c, f, a, m⟩
  have hc3 : c = "free" ∨ c = "auto" ∨ c = "menu" := by
    simpa [isModeName, or_assoc] using hcur
  simp only [onlyCurrentEnabled, Bool.and_eq_true, Bool.or_eq_true,
    Bool.not_eq_true', decide_eq_true_eq] at hinv
  obtain ⟨⟨hf, ha⟩, hm⟩ := hinv
  refine ⟨rfl, rfl, ?_, ?_⟩
  · rcases hc3 with h | h | h <;> subst h <;> simp [setEnabled]
  · intro n
    rcases hc3 with h | h | h <;> subst h <;>
      simp only [enabledOf, setEnabled] <;>
      split_ifs <;> simp_all

/-- Witness for C9: from the state reached by `setMode('auto')`, a call
`setMode('paused')` throws, records exactly the `auto` disable, keeps
`currentMode = 'auto'`, and leaves the three modes disabled. -/
theorem setMode_unknown_not_atomic_witness :
    ((setMode (runSetModes initFlightState ["auto"]) "paused").threw = true ∧
      (setMode (runSetModes initFlightState ["auto"]) "paused").events =
        [ModeEvent.disableCall (runSetModes initFlightState ["auto"]).currentMode] ∧
      (setMode (runSetModes initFlightState ["auto"]) "paused").state.currentMode =
        (runSetModes initFlightState ["auto"]).currentMode ∧
      ∀ n : String,
        enabledOf (setMode (runSetModes initFlightState ["auto"]) "paused").state n
          = false) :=
  setMode_unknown_not_atomic (runSetModes initFlightState ["auto"]) "paused"
    (by decide) (by decide) (by decide)

/-- Claim C10: `Mode.prototype.toggle` called with no argument never flips
the `enabled` flag: when enabled it calls `enable()` again (flag stays
true), when disabled it calls `disable()` (flag stays false). -/
theorem toggle_without_argument_never_flips (m : ModeState) :
    (modeToggle m none).1.enabled = m.enabled ∧
    (modeToggle m none).2 =
      (if m.enabled then [ModeEvent.enableCall m.name]
       else [ModeEvent.disableCall m.name]) := by
  cases hm : m.enabled <;>
    simp [modeToggle, modeEnable, modeDisable, hm]

/-! ## Theorems about collision detection and the speed multiplier -/

/-- Claim C2: in free-flight mode, for a non-zero translation vector,
`colliding()` returns true iff some raycast intersection has distance
strictly less than its object's Body's `getCollisionDistance()`; in
particular with no intersections, or with every intersection at or beyond
its body's collision distance, it returns false. -/
theorem colliding_iff_close_intersection (tv : Vec3)
    (intersects : List RayIntersection) (getBody : String → Body)
    (h : lengthSq tv ≠ 0) :
    colliding tv intersects getBody = true ↔
      ∃ i ∈ intersects,
        i.distance < (getBody i.objectName).getCollisionDistance := by
  simp only [colliding, if_neg h]
  by_cases he : intersects.length = 0
  · rw [if_pos he]
    rw [List.length_eq_zero.mp he]
    simp
  · rw [if_neg he]
    simp [List.any_eq_true]

/-- Witness for C2, following the spec's scenario: translation vector
`(0,0,-1)`, one intersection with Earth at distance `1/20000` au, Earth's
collision distance `1/10000` au, so `colliding()` is true. -/
theorem colliding_iff_close_intersection_witness :
    colliding (0, 0, -1)
      [{ objectName := "Earth", distance := 1/20000 }] lookupEarth = true :=
  (colliding_iff_close_intersection (0, 0, -1)
      [{ objectName := "Earth", distance := 1/20000 }] lookupEarth
      (by norm_num [lengthSq])).mpr
    ⟨{ objectName := "Earth", distance := 1/20000 }, by simp,
     by norm_num [lookupEarth, earthBody, Body.getCollisionDistance,
       Body.getSurfaceCollisionDistance, Body.getScaledRadius, Body.radius,
       kmPerAu]⟩

/-- Helper: the fold computing `getClosestDistance` is a lower bound of
the mapped distances. -/
theorem getClosestDistance_le_of_mem (distOf : Body → ℚ)
    (bodies : List Body) (b : Body) (hb : b ∈ bodies) :
    getClosestDistance distOf bodies ≤ ((distOf b : ℚ) : WithTop ℚ) := by
  induction bodies with
  | nil => cases hb
  | cons c rest ih =>
    simp only [getClosestDistance, List.map_cons, List.foldr_cons]
    rcases List.mem_cons.mp hb with h | h
    · subst h
      exact min_le_left _ _
    · exact le_trans (min_le_right _ _) (ih h)

/-- Helper: `getClosestDistance` is the sentinel `⊤` or a distance
attained by some body of the set. -/
theorem getClosestDistance_attained (distOf : Body → ℚ)
    (bodies : List Body) :
    getClosestDistance distOf bodies = ⊤ ∨
      ∃ b ∈ bodies,
        getClosestDistance distOf bodies = ((distOf b : ℚ) : WithTop ℚ) := by
  induction bodies with
  | nil => exact Or.inl rfl
  | cons c rest ih =>
    right
    rcases ih with h | ⟨b, hb, he⟩
    · refine ⟨c, List.mem_cons_self c rest, ?_⟩
      simp only [getClosestDistance, List.map_cons, List.foldr_cons] at h ⊢
      rw [h]
      exact min_eq_left le_top
    · simp only [getClosestDistance, List.map_cons, List.foldr_cons] at he ⊢
      rcases le_total ((distOf c : ℚ) : WithTop ℚ)
        ((rest.map (fun x => ((distOf x : ℚ) : WithTop ℚ))).foldr min ⊤) with
        hle | hle
      · exact ⟨c, List.mem_cons_self c rest, min_eq_left hle⟩
      · exact ⟨b, List.mem_cons_of_mem c hb, by rw [min_eq_right hle, he]⟩

/-- Claim C5: `getTranslationSpeedMultiplier` on an explicit empty body
set returns the defined unbounded sentinel `⊤` (not NaN, not a failure);
with the argument omitted it defaults to all collideable bodies and
returns the minimum camera-to-body distance over that set (a lower bound
of all the distances, attained by one of the bodies when the set is
nonempty). -/
theorem multiplier_empty_sentinel (distOf : Body → ℚ)
    (allBodies : List Body) :
    getTranslationSpeedMultiplier distOf allBodies (some []) = ⊤ ∧
    getTranslationSpeedMultiplier distOf allBodies none =
      getClosestDistance distOf (getCollideableBodies allBodies) ∧
    (∀ b ∈ getCollideableBodies allBodies,
      getTranslationSpeedMultiplier distOf allBodies none ≤
        ((distOf b : ℚ) : WithTop ℚ)) ∧
    (getTranslationSpeedMultiplier distOf allBodies none = ⊤ ∨
      ∃ b ∈ getCollideableBodies allBodies,
        getTranslationSpeedMultiplier distOf allBodies none =
          ((distOf b : ℚ) : WithTop ℚ)) := by
  refine ⟨rfl, rfl, ?_, ?_⟩
  · intro b hb
    exact getClosestDistance_le_of_mem distOf _ b hb
  · exact getClosestDistance_attained distOf _

/-- Witness for C5: concrete distance function and two-body registry. -/
theorem multiplier_empty_sentinel_witness :
    getTranslationSpeedMultiplier dExample [bodyExA, bodyExB] (some []) = ⊤ ∧
    getTranslationSpeedMultiplier dExample [bodyExA, bodyExB] none ≤
      ((dExample bodyExA : ℚ) : WithTop ℚ) :=
  ⟨(multiplier_empty_sentinel dExample [bodyExA, bodyExB]).1,
   (multiplier_empty_sentinel dExample [bodyExA, bodyExB]).2.2.1 bodyExA
     (by simp [getCollideableBodies, bodyExA, bodyExB])⟩

/-! ## Theorems about Body collision geometry -/

/-- Counterexample for C8: the margin `getCollisionDistance() −
getScaledRadius()` is not a fixed quantity — it equals the scaled radius
itself, so two bodies with scaled radii 1 au and 2 au have margins 1 au
and 2 au.  Hence no single margin `m` satisfies
`getCollisionDistance = getScaledRadius + m` for all bodies. -/
theorem collision_margin_not_fixed :
    ¬ ∃ m : ℚ, ∀ b : Body,
        b.getCollisionDistance = b.getScaledRadius + m := by
  rintro ⟨m, hm⟩
  have h1 := hm bodyExA
  have h2 := hm bodyExB
  simp only [bodyExA, bodyExB, Body.getCollisionDistance,
    Body.getSurfaceCollisionDistance, Body.getScaledRadius, Body.radius,
    kmPerAu] at h1 h2
  norm_num at h1 h2
  linarith

/-- Claim C8 (amended): for every Body constructed with positive
`radiusInKm`, the radius is strictly positive; `getCollisionDistance()`
equals the scaled radius plus a margin that is itself the scaled radius
(the surface collision distance), i.e. twice the scaled radius, and it is
monotonically increasing in the scaled radius. -/
theorem body_collision_distance_spec (b : Body)
    (hr : 0 < b.radiusInKm) :
    0 < b.radius ∧
    b.getSurfaceCollisionDistance = b.getScaledRadius ∧
    b.getCollisionDistance = 2 * b.getScaledRadius ∧
    ∀ b' : Body, b.getScaledRadius < b'.getScaledRadius →
      b.getCollisionDistance < b'.getCollisionDistance := by
  refine ⟨?_, rfl, ?_, ?_⟩
  · exact div_pos hr (by norm_num [kmPerAu])
  · simp only [Body.getCollisionDistance, Body.getSurfaceCollisionDistance]
    ring
  · intro b' h
    simp only [Body.getCollisionDistance, Body.getSurfaceCollisionDistance]
    linarith

/-! ## Theorems about the auto-flight and free-flight frames -/

/-- Helper: the speed multiplier of the one-element body set `[body]` is
the camera-to-body distance itself. -/
theorem multiplier_singleton (distOf : Body → ℚ) (allBodies : List Body)
    (body : Body) :
    (getTranslationSpeedMultiplier distOf allBodies (some [body])).untop' 0 =
      distOf body := by
  show (getClosestDistance distOf [body]).untop' 0 = distOf body
  have : getClosestDistance distOf [body] = ((distOf body : ℚ) : WithTop ℚ) := by
    simp only [getClosestDistance, List.map_cons, List.map_nil,
      List.foldr_cons, List.foldr_nil]
    exact min_eq_left le_top
  rw [this, WithTop.untop'_coe]

/-- Helper: `setMode` with a target other than `free` never emits an
enable call for the free mode. -/
theorem setMode_no_enable_free (s : FlightState) (name : String)
    (h : name ≠ "free") :
    ModeEvent.enableCall "free" ∉ (setMode s name).events := by
  have h2 : "free" ≠ name := Ne.symm h
  simp only [setMode]
  split_ifs <;> simp [h2]

/-- Claim C4: each auto-flight translate tick either (camera within the
target body's collision distance) transitions the mode machine exactly as
`setMode('menu')` does and signals stop with the camera untouched, or
(not colliding) translates the camera along its local forward axis by
`zSpeed × delta × getTranslationSpeedMultiplier([body])`, records the
scalar speed `translationZ / delta`, performs the auto update side effect
and leaves the mode machine untouched; in both cases free mode is never
enabled. -/
theorem translateTo_frame_behavior (zSpeed : ℚ) (distOf : Body → ℚ)
    (allBodies : List Body) (body : Body) (delta : ℚ) (s : SimState) :
    (if body.isColliding (distOf body) = true then
      (translateToFrame zSpeed distOf allBodies body delta s).signal =
          some false ∧
      (translateToFrame zSpeed distOf allBodies body delta s).state.flight =
          (setMode s.flight "menu").state ∧
      (translateToFrame zSpeed distOf allBodies body delta s).events =
          (setMode s.flight "menu").events ∧
      (translateToFrame zSpeed distOf allBodies body delta s).state.camera =
          s.camera
    else
      (translateToFrame zSpeed distOf allBodies body delta s).signal = none ∧
      (translateToFrame zSpeed distOf allBodies body delta s).state.camera =
          s.camera.translateZ (-(zSpeed * delta * distOf body)) ∧
      (translateToFrame zSpeed distOf allBodies body delta s).state.speed =
          zSpeed * delta * distOf body / delta ∧
      (translateToFrame zSpeed distOf allBodies body delta s).events =
          autoUpdateEvents ∧
      (translateToFrame zSpeed distOf allBodies body delta s).state.flight =
          s.flight) ∧
    ModeEvent.enableCall "free" ∉
      (translateToFrame zSpeed distOf allBodies body delta s).events := by
  by_cases hc : body.isColliding (distOf body) = true
  · rw [if_pos hc]
    unfold translateToFrame
    rw [if_pos hc]
    exact ⟨⟨rfl, rfl, rfl, rfl⟩, setMode_no_enable_free s.flight "menu"
      (by decide)⟩
  · rw [if_neg hc]
    unfold translateToFrame
    rw [if_neg hc]
    rw [multiplier_singleton distOf allBodies body]
    exact ⟨⟨rfl, rfl, rfl, rfl, rfl⟩, by simp [autoUpdateEvents]⟩

/-- Helper: closed form of the pan run while `t` stays in `[0, 1]`: after
`k + 1` ticks (`k ≤ 20`), `t = (k+1)/20` and the camera orientation is
the slerp at parameter `k/20`. -/
theorem panRun_formula {Q : Type} (slerp : Q → Q → ℚ → Q) (i q : Q) :
    ∀ k : ℕ, k ≤ 20 →
      panRun slerp i q (k + 1) =
        { t := ((k : ℚ) + 1) / 20, quat := slerp i q ((k : ℚ) / 20),
          phase := AutoPhase.pan } := by
  intro k
  induction k with
  | zero =>
    intro _
    show panToFrame slerp i q
      { t := 0, quat := i, phase := AutoPhase.pan } = _
    simp only [panToFrame]
    norm_num
  | succ n ih =>
    intro hk
    have hn : n ≤ 20 := Nat.le_of_succ_le hk
    show panToFrame slerp i q (panRun slerp i q (n + 1)) = _
    rw [ih hn]
    have hle : ((n : ℚ) + 1) / 20 ≤ 1 := by
      have h19 : (n : ℚ) ≤ 19 := by exact_mod_cast (by omega : n ≤ 19)
      rw [div_le_one (by norm_num)]
      linarith
    have hsnap : ¬(1 < ((n : ℚ) + 1) / 20 ∧
        ((n : ℚ) + 1) / 20 < 1 + 1 / 20) :=
      fun hx => absurd hx.1 (not_lt.mpr hle)
    simp only [panToFrame, if_neg hsnap, if_pos hle]
    congr 1 <;> push_cast <;> ring_nf

/-- Claim C3: in auto-flight phase 1, stepping `t` by `0.05` from `0`,
tick 21 sets the camera orientation to the slerp at exactly `t = 1`, i.e.
exactly the target orientation, while still panning; the very next tick
replaces `animationFrame` by the translate phase, leaving the orientation
on target.  Moreover, from any drifted `t` with `1 < t < 1.05` the frame
snaps `t` to exactly `1`, again producing exactly the target
orientation. -/
theorem panTo_pan_convergence {Q : Type} (slerp : Q → Q → ℚ → Q)
    (initialQuaternion targetQuaternion : Q)
    (hslerp : slerp initialQuaternion targetQuaternion 1 =
      targetQuaternion) :
    (panRun slerp initialQuaternion targetQuaternion 21).quat =
        targetQuaternion ∧
    (panRun slerp initialQuaternion targetQuaternion 21).phase =
        AutoPhase.pan ∧
    (panRun slerp initialQuaternion targetQuaternion 22).phase =
        AutoPhase.translate ∧
    (panRun slerp initialQuaternion targetQuaternion 22).quat =
        targetQuaternion ∧
    ∀ s : PanState Q, 1 < s.t → s.t < 1 + 1/20 →
      (panToFrame slerp initialQuaternion targetQuaternion s).quat =
        targetQuaternion := by
  have h21 := panRun_formula slerp initialQuaternion targetQuaternion 20
    (le_refl 20)
  norm_num at h21
  rw [hslerp] at h21
  have h22 : panRun slerp initialQuaternion targetQuaternion 22 =
      { t := 21 / 20, quat := targetQuaternion,
        phase := AutoPhase.translate } := by
    show panToFrame slerp initialQuaternion targetQuaternion
      (panRun slerp initialQuaternion targetQuaternion 21) = _
    rw [h21]
    simp only [panToFrame]
    norm_num
  refine ⟨by rw [h21], by rw [h21], by rw [h22], by rw [h22], ?_⟩
  intro s h1 h2
  have hsnap : (1 : ℚ) < s.t ∧ s.t < 1 + 1/20 := ⟨h1, h2⟩
  simp only [panToFrame, if_pos hsnap, if_pos (le_refl (1 : ℚ))]
  exact hslerp

/-- Witness for C3: with linear interpolation from orientation `0` to
orientation `5` over ℚ, tick 21 is exactly on target and tick 22 has
switched to the translate phase. -/
theorem panTo_pan_convergence_witness :
    (panRun qlerp 0 5 21).quat = 5 ∧
    (panRun qlerp 0 5 22).phase = AutoPhase.translate :=
  ⟨(panTo_pan_convergence qlerp 0 5 (by norm_num [qlerp])).1,
   (panTo_pan_convergence qlerp 0 5 (by norm_num [qlerp])).2.2.1⟩

/-- Claim C7: on a free-flight tick where `colliding()` is true, the
camera and the recorded scalar speed are left unchanged (the previous
tick's speed stays stale), and the mode machine is untouched, while the
unconditional per-tick effects still occur: body translation when
`time-on` is set, body rotation when `rotate-bodies` is set, and the
body-children move and HUD update always. -/
theorem free_frame_colliding_keeps_camera_and_speed (cfg : FreeConfig)
    (length3 : Vec3 → ℚ) (distOf : Body → ℚ) (allBodies : List Body)
    (tv : Vec3) (intersects : List RayIntersection)
    (getBody : String → Body) (moveCamera : ℚ → ℚ → Camera → Camera)
    (delta : ℚ) (s : SimState)
    (h : colliding tv intersects getBody = true) :
    (freeFrame cfg length3 distOf allBodies tv intersects getBody
        moveCamera delta s).1 = s ∧
    ModeEvent.moveBodyChildren ∈ (freeFrame cfg length3 distOf allBodies
        tv intersects getBody moveCamera delta s).2 ∧
    ModeEvent.hudUpdate ∈ (freeFrame cfg length3 distOf allBodies tv
        intersects getBody moveCamera delta s).2 ∧
    (cfg.timeOn = true → ModeEvent.timeIncrement ∈ (freeFrame cfg length3
        distOf allBodies tv intersects getBody moveCamera delta s).2 ∧
      ModeEvent.bodyTranslate ∈ (freeFrame cfg length3 distOf allBodies tv
        intersects getBody moveCamera delta s).2) ∧
    (cfg.rotateBodiesOn = true → ModeEvent.bodyRotate ∈ (freeFrame cfg
        length3 distOf allBodies tv intersects getBody moveCamera delta
        s).2) := by
  unfold freeFrame
  rw [if_pos h]
  refine ⟨rfl, by simp, by simp, fun ht => ?_, fun hr => ?_⟩
  · rw [ht]
    exact ⟨by simp, by simp⟩
  · rw [hr]
    simp

/-- Witness for C7: the spec's scenario inputs (translation `(0,0,-1)`,
one Earth intersection at `1/20000` au) make `colliding()` true, and the
tick leaves the concrete state untouched. -/
theorem free_frame_colliding_witness :
    (freeFrame cfgExample (fun v => v.2.2) dExample [earthBody] (0, 0, -1)
      [{ objectName := "Earth", distance := 1/20000 }] lookupEarth
      (fun d m c => Camera.translateZ c (d * m)) 1 simExample).1 =
      simExample :=
  (free_frame_colliding_keeps_camera_and_speed _ _ _ _ _ _ _ _ _ _
    (by
      simp only [colliding, lengthSq]
      norm_num [lookupEarth, earthBody, Body.getCollisionDistance,
        Body.getSurfaceCollisionDistance, Body.getScaledRadius, Body.radius,
        kmPerAu, List.any_cons, List.any_nil])).1

/-- Witness for C8's amended theorem: the 1-au body, compared with the
2-au body for monotonicity. -/
theorem body_collision_distance_spec_witness :
    0 < bodyExA.radius ∧
    bodyExA.getCollisionDistance = 2 * bodyExA.getScaledRadius ∧
    bodyExA.getCollisionDistance < bodyExB.getCollisionDistance :=
  ⟨(body_collision_distance_spec bodyExA
      (by norm_num [bodyExA, kmPerAu])).1,
   (body_collision_distance_spec bodyExA
      (by norm_num [bodyExA, kmPerAu])).2.2.1,
   (body_collision_distance_spec bodyExA
      (by norm_num [bodyExA, kmPerAu])).2.2.2 bodyExB
     (by norm_num [bodyExA, bodyExB, Body.getScaledRadius, Body.radius,
       kmPerAu])⟩

end Kimchi
